import Mathlib

/-!
Verification of the breathing-monitor lamp demo
(`hue_breathing_demo.py`): a Walabot acquisition server process and a
Hue-lamp control loop communicating over a request/reply socket.

The embedding below models, directly from the source:
* the rolling energy window update (`breath_loop`, the three `if`s on
  `energy_log`),
* the 3-sample smoothing and window maximum,
* the brightness normalization `int(195 * ((enrg - min) / (max - min)) + 60)`
  (Python `int` truncates toward zero; the division is modelled as
  fallible, returning `none` exactly when the Python expression would
  raise `ZeroDivisionError`),
* the hue computation from seconds-since-peak and the window maximum,
* the lamp-write suppression threshold and the emitted command/delay
  sequence,
* the key handling adjusting the window capacity,
* one iteration of the server main loop (`WalaServer.run`), where reading
  the `energy` local before its first assignment is modelled as an
  `Except.error` (Python raises `NameError`),
* the client shutdown handshake in `__main__`.

Real numbers from the sensor are modelled as rationals; machine floats are
out of scope, the arithmetic here is exact.
-/

/-- Python `int()` applied to a rational: truncation toward zero. -/
def pyIntTrunc (x : ℚ) : ℤ :=
  if 0 ≤ x then ⌊x⌋ else ⌈x⌉

/-- Python slice `l[-n:]`: the last `n` elements, except that `l[-0:]`
is the whole list. -/
def pySliceLast (n : ℕ) (l : List ℚ) : List ℚ :=
  if n = 0 then l else l.drop (l.length - n)

/-- One rolling-window update of `energy_log` (source lines 205-210):
append when at or below capacity, pop the front when at capacity + 1,
and slice down to the last `samples` elements when over capacity. -/
def windowUpdate (samples : ℕ) (energy_log : List ℚ) (enrg : ℚ) : List ℚ :=
  let l1 := if energy_log.length ≤ samples then energy_log ++ [enrg] else energy_log
  let l2 := if l1.length = samples + 1 then l1.tail else l1
  if samples < l2.length then pySliceLast samples l2 else l2

/-- `enrg = sum(energy_log[-3:]) / 3` (source line 213): average of the
last three samples (the divisor stays 3 even on shorter logs). -/
def smoothed (energy_log : List ℚ) : ℚ :=
  (pySliceLast 3 energy_log).sum / 3

/-- `max_enrg = max(energy_log)` (source line 216); `none` on an empty
log, where Python `max` would raise. -/
def windowMax (energy_log : List ℚ) : Option ℚ :=
  energy_log.max?

/-- Brightness normalization (source lines 217-220):
`bri = int(195 * ((enrg - min_enrg) / (max_enrg - min_enrg)) + 60)` with
`min_enrg = 0`. `none` models the `ZeroDivisionError` Python raises when
the denominator `max_enrg - min_enrg` is zero; the source has no guard. -/
def computeBri (enrg max_enrg : ℚ) : Option ℤ :=
  let min_enrg : ℚ := 0
  if max_enrg - min_enrg = 0 then none
  else some (pyIntTrunc (195 * ((enrg - min_enrg) / (max_enrg - min_enrg)) + 60))

/-- The per-iteration brightness from the current window: smoothing, the
window maximum, then normalization. -/
def briFromWindow (energy_log : List ℚ) : Option ℤ :=
  match windowMax energy_log with
  | none => none
  | some m => computeBri (smoothed energy_log) m

/-- Hue computation (source lines 231-238): force 65000 when the last
peak is more than 13 s old or the window maximum is below 0.0002,
otherwise drift redward by 1600 per whole second since the peak, then
clamp at 65000. -/
def computeHue (secs max_enrg : ℚ) : ℤ :=
  let hue : ℤ :=
    if 13 < secs ∨ max_enrg < 2 / 10000 then 65000
    else 43690 + 1600 * pyIntTrunc secs
  if 65000 < hue then 65000 else hue

/-- A side effect of the lamp-control branch: a bridge call or a delay. -/
inductive LampCmd
  | setBri (b : ℤ)
  | setHue (h : ℤ)
  | sleepMs (ms : ℕ)
deriving DecidableEq

/-- Lamp-write branch (source lines 246-253): when the new brightness
differs from the last sent one by more than 2, send brightness, sleep
100 ms, send hue, sleep 100 ms, and cache the new brightness; otherwise
do nothing. Returns the new `prev_bri` and the emitted command trace. -/
def lampUpdate (prev_bri bri hue : ℤ) : ℤ × List LampCmd :=
  if 2 < |bri - prev_bri| then
    (bri, [LampCmd.setBri bri, LampCmd.sleepMs 100, LampCmd.setHue hue, LampCmd.sleepMs 100])
  else
    (prev_bri, [])

/-- Default samples-window capacity (source line 56). -/
def SAMPLES : ℤ := 60

/-- Key handling (source lines 266-297). `key` is the first key code
(`-1` when none is pending); `key2` is the code read after the `224`
escape. `q` (113) clears `active`, space (32) resets the capacity,
`224` then `72`/`80` moves the capacity up/down by 10 inside [10, 250].
Returns the new `(samples, active)`. -/
def keyStep (samples : ℤ) (active : Bool) (key key2 : ℤ) : ℤ × Bool :=
  if key = -1 then (samples, active)
  else
    let active := if key = 113 then false else active
    let samples := if key = 32 then SAMPLES else samples
    if key = 224 then
      let s1 := if key2 = 72 then (if 250 < samples + 10 then 250 else samples + 10) else samples
      let s2 := if key2 = 80 then (if s1 - 10 < 10 then 10 else s1 - 10) else s1
      (s2, active)
    else
      (samples, active)

/-- State of the server main loop: the last computed `energy` local
(`none` before its first assignment) and the `capture` flag. -/
structure ServerState where
  energy : Option ℚ
  capture : Bool
deriving DecidableEq

/-- Externally visible step of a server iteration. -/
inductive ServerAction
  | trigger
  | replyEnergy (e : ℚ)
deriving DecidableEq

/-- Server state on entering the main loop (source lines 111-112):
`capture = True`, the `energy` local not yet assigned. -/
def serverInit : ServerState :=
  ServerState.mk none true

/-- One iteration of the `WalaServer.run` main loop (source lines
116-136). `incoming = none` models the non-blocking receive raising
`zmq.error.Again`: the server triggers a capture and recomputes
`energy` (value `newEnergy`). A pending `"stop"` clears `capture`; a
pending `"energy"` replies with the stored `energy`, which is a
`NameError` (modelled as `Except.error ()`) if `energy` was never
assigned; any other message is ignored. -/
def serverIter (st : ServerState) (incoming : Option String) (newEnergy : ℚ) :
    Except Unit (ServerState × List ServerAction) :=
  match incoming with
  | none =>
      Except.ok (ServerState.mk (some newEnergy) st.capture, [ServerAction.trigger])
  | some message =>
      if message = "stop" then
        Except.ok (ServerState.mk st.energy false, [])
      else if message = "energy" then
        match st.energy with
        | none => Except.error ()
        | some e => Except.ok (st, [ServerAction.replyEnergy e])
      else
        Except.ok (st, [])

/-- Externally visible step of the client shutdown sequence. -/
inductive ClientAction
  | sendStop
  | joinServer
  | terminateServer
deriving DecidableEq

/-- Client shutdown (source lines 331-343): send `"stop"`, read the
reply; on `"stopped"` join the server process and exit 0, otherwise
terminate it and exit 1. Returns the action trace and the exit code. -/
def clientShutdown (reply : String) : List ClientAction × ℕ :=
  if reply = "stopped" then
    ([ClientAction.sendStop, ClientAction.joinServer], 0)
  else
    ([ClientAction.sendStop, ClientAction.terminateServer], 1)

/-- Claim C2: an all-zero window of the prefill length 5 is a reachable
control-loop window; its maximum is 0, and the brightness normalization
then divides by the zero denominator `max - 0`, which the source leaves
unguarded (modelled as the `none` outcome). -/
theorem windowMax_zero_unguarded_division :
    windowMax (List.replicate 5 (0 : ℚ)) = some 0 ∧
    briFromWindow (List.replicate 5 (0 : ℚ)) = none := by
  constructor
  · decide
  · show briFromWindow [0, 0, 0, 0, 0] = none
    rw [briFromWindow]
    norm_num [windowMax, computeBri, List.max?]

/-- Counterexample to claim C1: at smoothed = 0.0004 and window maximum
0.0008 the code's brightness is not 158 (the claimed rounding); Python
`int` truncates 157.5 to 157. -/
theorem computeBri_not_round_on_half :
    computeBri (4 / 10000) (8 / 10000) ≠ some 158 := by
  norm_num [computeBri, pyIntTrunc]

/-- Claim C1 (amended): with a nonzero window maximum, the pre-hue-boost
brightness is the Python `int` truncation of
`195 * (smoothed - 0) / (max - 0) + 60`, nominally in [60, 255] when
`0 ≤ smoothed ≤ max`; in particular smoothed = 0.0004 and max = 0.0008
give brightness 157 (not the claimed rounding to 158). -/
theorem computeBri_trunc_spec (enrg max_enrg : ℚ) (hm : max_enrg ≠ 0) :
    computeBri enrg max_enrg = some (pyIntTrunc (195 * (enrg / max_enrg) + 60)) ∧
    (0 ≤ enrg → enrg ≤ max_enrg →
      60 ≤ pyIntTrunc (195 * (enrg / max_enrg) + 60) ∧
      pyIntTrunc (195 * (enrg / max_enrg) + 60) ≤ 255) ∧
    computeBri (4 / 10000) (8 / 10000) = some 157 := by
  refine ⟨?_, ?_, ?_⟩
  · simp [computeBri, sub_zero, hm]
  · intro h0 h1
    have hmpos : 0 < max_enrg := lt_of_le_of_ne (h0.trans h1) (Ne.symm hm)
    have hr0 : 0 ≤ enrg / max_enrg := div_nonneg h0 hmpos.le
    have hr1 : enrg / max_enrg ≤ 1 := (div_le_one hmpos).mpr h1
    have hx0 : (60 : ℚ) ≤ 195 * (enrg / max_enrg) + 60 := by nlinarith
    have hx1 : 195 * (enrg / max_enrg) + 60 ≤ 255 := by nlinarith
    rw [pyIntTrunc, if_pos (by linarith)]
    constructor
    · exact Int.le_floor.mpr (by exact_mod_cast hx0)
    · exact_mod_cast le_trans (Int.floor_le (195 * (enrg / max_enrg) + 60)) hx1
  · norm_num [computeBri, pyIntTrunc]

/-- Witness for `computeBri_trunc_spec` at the concrete inputs of the
claim's example. -/
theorem computeBri_trunc_spec_witness :
    computeBri (4 / 10000) (8 / 10000) =
      some (pyIntTrunc (195 * ((4 : ℚ) / 10000 / (8 / 10000)) + 60)) :=
  (computeBri_trunc_spec (4 / 10000) (8 / 10000) (by norm_num)).1

/-- Full case analysis of one window update: grow below capacity, pop
the front at capacity, and — when the window is over capacity because
`samples` was just reduced — keep only the last `samples` elements of
the old window, without appending the new sample. -/
theorem windowUpdate_cases (samples : ℕ) (l : List ℚ) (e : ℚ) (hs : 0 < samples) :
    windowUpdate samples l e =
      if l.length < samples then l ++ [e]
      else if l.length = samples then (l ++ [e]).tail
      else l.drop (l.length - samples) := by
  simp only [windowUpdate, pySliceLast]
  split_ifs with h1 h2 h3 h4 h5 h6 h7 h8 <;>
    simp_all [List.length_append, List.length_tail] <;> omega

/-- Claim C3: on a window no longer than the (positive) capacity, one
update appends the sample when below capacity, evicts exactly the
oldest element and appends at the end when at capacity, and never
leaves the window longer than the capacity. -/
theorem windowUpdate_fifo (samples : ℕ) (energy_log : List ℚ) (enrg : ℚ)
    (hs : 0 < samples) (hlen : energy_log.length ≤ samples) :
    (energy_log.length < samples →
      windowUpdate samples energy_log enrg = energy_log ++ [enrg]) ∧
    (energy_log.length = samples →
      windowUpdate samples energy_log enrg = energy_log.tail ++ [enrg]) ∧
    (windowUpdate samples energy_log enrg).length ≤ samples := by
  rw [windowUpdate_cases samples energy_log enrg hs]
  refine ⟨fun h => by rw [if_pos h], fun h => ?_, ?_⟩
  · rw [if_neg (by omega), if_pos h]
    cases energy_log with
    | nil => simp at h; omega
    | cons a t => rfl
  · rcases lt_or_eq_of_le hlen with h | h
    · rw [if_pos h]
      simp
      omega
    · rw [if_neg (by omega), if_pos h]
      simp [List.length_tail]
      omega

/-- Witness for `windowUpdate_fifo`: updating a full 2-element window. -/
theorem windowUpdate_fifo_witness :
    windowUpdate 2 [1, 2] 3 = ([1, 2] : List ℚ).tail ++ [3] :=
  (windowUpdate_fifo 2 [1, 2] 3 (by norm_num) (by norm_num)).2.1 rfl

/-- Counterexample to claim C4: with capacity reduced to 10 under a
12-element window, the update does not append the new sample 99 at all;
it truncates the old window to its last 10 elements, so the claimed
"append, then truncate to the most recent 10" result is wrong. -/
theorem windowUpdate_no_append_over_capacity :
    windowUpdate 10 [0, 1, 2, 3, 4, 5, 6, 7, 8, 9, 10, 11] 99 =
      ([2, 3, 4, 5, 6, 7, 8, 9, 10, 11] : List ℚ) ∧
    (99 : ℚ) ∉ windowUpdate 10 [0, 1, 2, 3, 4, 5, 6, 7, 8, 9, 10, 11] 99 := by
  decide

/-- Claim C4 (amended): the new sample is appended only when the window
is at or below capacity (with the oldest element popped when that
append overflows by one); when capacity was just reduced below the
current length, the window is truncated to its most recent `samples`
elements and the newly received sample is discarded. -/
theorem windowUpdate_capacity_enforcement (samples : ℕ) (energy_log : List ℚ) (enrg : ℚ)
    (hs : 0 < samples) :
    windowUpdate samples energy_log enrg =
      if energy_log.length < samples then energy_log ++ [enrg]
      else if energy_log.length = samples then (energy_log ++ [enrg]).tail
      else energy_log.drop (energy_log.length - samples) :=
  windowUpdate_cases samples energy_log enrg hs

/-- Witness for `windowUpdate_capacity_enforcement` on a window over
capacity. -/
theorem windowUpdate_capacity_enforcement_witness :
    windowUpdate 1 [4, 5, 6] 7 =
      if ([4, 5, 6] : List ℚ).length < 1 then [4, 5, 6] ++ [7]
      else if ([4, 5, 6] : List ℚ).length = 1 then (([4, 5, 6] : List ℚ) ++ [7]).tail
      else ([4, 5, 6] : List ℚ).drop (([4, 5, 6] : List ℚ).length - 1) :=
  windowUpdate_capacity_enforcement 1 [4, 5, 6] 7 (by norm_num)

/-- Claim C5: nonnegative seconds-since-peak above 13, or a window
maximum below 0.0002, force hue 65000; otherwise the hue is
43690 + 1600·⌊secs⌋, saturated at 65000 (the saturation is inactive
there, so the `min` is exact). -/
theorem computeHue_spec (secs max_enrg : ℚ) (hsecs : 0 ≤ secs) :
    ((13 < secs ∨ max_enrg < 2 / 10000) → computeHue secs max_enrg = 65000) ∧
    (¬(13 < secs ∨ max_enrg < 2 / 10000) →
      computeHue secs max_enrg = min (43690 + 1600 * ⌊secs⌋) 65000) := by
  constructor
  · intro h
    simp only [computeHue, if_pos h]
    norm_num
  · intro h
    have h13 : secs ≤ 13 := by push_neg at h; exact h.1
    have hfl : ⌊secs⌋ ≤ 13 := by
      have := Int.floor_le_floor h13
      simpa using this
    simp only [computeHue, if_neg h, pyIntTrunc, if_pos hsecs]
    rw [if_neg (by omega), min_eq_left (by omega)]

/-- Witness for `computeHue_spec`: the forced branch at 14 s and the
drift branch at 5 s. -/
theorem computeHue_spec_witness :
    computeHue 14 1 = 65000 ∧ computeHue 5 1 = min (43690 + 1600 * ⌊(5 : ℚ)⌋) 65000 :=
  ⟨(computeHue_spec 14 1 (by norm_num)).1 (by norm_num),
   (computeHue_spec 5 1 (by norm_num)).2 (by norm_num)⟩

/-- Claim C6: a brightness within 2 of the last sent value produces no
bridge traffic and leaves the cached brightness unchanged; a larger
change sends brightness then hue as two calls, each followed by a
100 ms delay, and caches the new brightness. -/
theorem lampUpdate_spec (prev_bri bri hue : ℤ) :
    (|bri - prev_bri| ≤ 2 → lampUpdate prev_bri bri hue = (prev_bri, [])) ∧
    (2 < |bri - prev_bri| → lampUpdate prev_bri bri hue =
      (bri, [LampCmd.setBri bri, LampCmd.sleepMs 100, LampCmd.setHue hue, LampCmd.sleepMs 100])) := by
  constructor
  · intro h
    rw [lampUpdate, if_neg (by omega)]
  · intro h
    rw [lampUpdate, if_pos h]

/-- Witness for `lampUpdate_spec`: a suppressed write at distance 1 and
a triggered write at distance 50. -/
theorem lampUpdate_spec_witness :
    lampUpdate 100 101 5 = (100, []) ∧
    lampUpdate 100 150 5 =
      (150, [LampCmd.setBri 150, LampCmd.sleepMs 100, LampCmd.setHue 5, LampCmd.sleepMs 100]) :=
  ⟨(lampUpdate_spec 100 101 5).1 (by norm_num), (lampUpdate_spec 100 150 5).2 (by norm_num)⟩

/-- Claim C7: the up key adds 10 clamped at 250, the down key subtracts
10 clamped at 10, space resets the capacity to the default 60; three up
inputs from 60 give 90, and eight down inputs from 90 floor at 10. -/
theorem keyStep_spec (samples : ℤ) (active : Bool) (key2 : ℤ) :
    keyStep samples active 224 72 = (min (samples + 10) 250, active) ∧
    keyStep samples active 224 80 = (max (samples - 10) 10, active) ∧
    keyStep samples active 32 key2 = (60, active) ∧
    (fun s => (keyStep s true 224 72).1)^[3] 60 = 90 ∧
    (fun s => (keyStep s true 224 80).1)^[8] 90 = 10 := by
  refine ⟨?_, ?_, ?_, by decide, by decide⟩
  · simp only [keyStep, SAMPLES]
    norm_num [min_def]
    split_ifs <;> first | rfl | omega
  · simp only [keyStep, SAMPLES]
    norm_num [max_def]
    split_ifs <;> first | rfl | omega
  · simp only [keyStep, SAMPLES]
    norm_num

/-- Claim C8: the server triggers a capture and recomputes the energy
exactly on iterations with no pending request; a pending `"energy"`
request is answered from the stored sample with no trigger and no state
change; any other non-`"stop"` request is ignored and the loop
continues; no iteration with a pending request ever triggers. -/
theorem serverIter_spec :
    (∀ (st : ServerState) (e : ℚ),
      serverIter st none e =
        Except.ok (ServerState.mk (some e) st.capture, [ServerAction.trigger])) ∧
    (∀ (st : ServerState) (x e : ℚ), st.energy = some x →
      serverIter st (some "energy") e = Except.ok (st, [ServerAction.replyEnergy x])) ∧
    (∀ (st : ServerState) (m : String) (e : ℚ), m ≠ "stop" → m ≠ "energy" →
      serverIter st (some m) e = Except.ok (st, [])) ∧
    (∀ (st : ServerState) (m : String) (e : ℚ) (r : ServerState × List ServerAction),
      serverIter st (some m) e = Except.ok r → ServerAction.trigger ∉ r.2) := by
  refine ⟨fun st e => rfl, fun st x e hx => ?_, fun st m e hstop henergy => ?_, ?_⟩
  · simp [serverIter, hx]
  · simp [serverIter, hstop, henergy]
  · intro st m e r h
    by_cases hstop : m = "stop"
    · simp [serverIter, hstop] at h
      subst h
      simp
    · by_cases henergy : m = "energy"
      · rcases hx : st.energy with _ | x
        · simp [serverIter, hstop, henergy, hx] at h
        · simp [serverIter, hstop, henergy, hx] at h
          subst h
          simp
      · simp [serverIter, hstop, henergy] at h
        subst h
        simp

/-- Witness for `serverIter_spec`: an `"energy"` reply from a stored
sample and an ignored `"hello"` request. -/
theorem serverIter_spec_witness :
    serverIter (ServerState.mk (some 5) true) (some "energy") 7 =
      Except.ok (ServerState.mk (some 5) true, [ServerAction.replyEnergy 5]) ∧
    serverIter (ServerState.mk (some 5) true) (some "hello") 7 =
      Except.ok (ServerState.mk (some 5) true, []) :=
  ⟨serverIter_spec.2.1 (ServerState.mk (some 5) true) 5 7 rfl,
   serverIter_spec.2.2.1 (ServerState.mk (some 5) true) "hello" 7 (by decide) (by decide)⟩

/-- Claim C10: if the very first message the server loop sees is
`"energy"`, the reply branch reads the `energy` local before any
assignment — a `NameError`, modelled as `Except.error ()`; after any
state in which a capture has stored a sample the `"energy"` branch is
well defined, and in particular one no-request iteration from the
initial state makes the next `"energy"` request succeed with the
captured value. -/
theorem serverIter_first_energy_undefined :
    (∀ e : ℚ, serverIter serverInit (some "energy") e = Except.error ()) ∧
    (∀ (st : ServerState) (x e : ℚ), st.energy = some x →
      ∃ r, serverIter st (some "energy") e = Except.ok r) ∧
    (∀ e e' : ℚ,
      (serverIter serverInit none e).bind (fun p => serverIter p.1 (some "energy") e') =
        Except.ok (ServerState.mk (some e) true, [ServerAction.replyEnergy e])) := by
  refine ⟨fun e => rfl, fun st x e hx => ?_, fun e e' => ?_⟩
  · exact ⟨(st, [ServerAction.replyEnergy x]), by simp [serverIter, hx]⟩
  · simp [serverIter, serverInit, Except.bind]

/-- Witness for `serverIter_first_energy_undefined`: a stored sample 9
makes the `"energy"` branch succeed. -/
theorem serverIter_first_energy_undefined_witness :
    ∃ r, serverIter (ServerState.mk (some 9) true) (some "energy") 4 = Except.ok r :=
  serverIter_first_energy_undefined.2.1 (ServerState.mk (some 9) true) 9 4 rfl

/-- Claim C9: after sending `"stop"`, a `"stopped"` reply makes the
client join the server process and exit 0; any other reply makes it
terminate the process and exit 1. -/
theorem clientShutdown_spec :
    clientShutdown "stopped" = ([ClientAction.sendStop, ClientAction.joinServer], 0) ∧
    ∀ reply : String, reply ≠ "stopped" →
      clientShutdown reply = ([ClientAction.sendStop, ClientAction.terminateServer], 1) := by
  exact ⟨rfl, fun reply h => by simp [clientShutdown, h]⟩

/-- Witness for `clientShutdown_spec`: an unexpected reply forces
termination and exit code 1. -/
theorem clientShutdown_spec_witness :
    clientShutdown "crashed" = ([ClientAction.sendStop, ClientAction.terminateServer], 1) :=
  clientShutdown_spec.2 "crashed" (by decide)
